import Mathlib

set_option maxRecDepth 8000

/-!
Verification development for the `gwls` repository (src/gwl.py).

The single source file defines four functions:
  * `get_GWL_syear_eyear` (the spec's `resolveYearRange`),
  * `read_GWL_yaml_file` (the spec's Reference Parser: textual rewrite + yaml load),
  * `get_GWL_lookup_table` (the spec's `buildLookupTable`),
  * `get_GWL_timeslice` (the spec's `sliceToTimeslice`).

The shallow embedding below translates each of them into Lean.  External
collaborators (the filesystem, the pyyaml structural loader, the xarray
dataset) are passed in as function parameters; the logic of src/gwl.py itself
is translated line by line.  Machine floats are modelled as rationals rounded
to the nearest IEEE-754 binary64 value (`roundDouble`); Python strings are
modelled as Lean `String` or `List Char`.
-/

/-- Model of Python `str.lower` on one ASCII character (all inputs handled by
the program - CMIP phase and pathway identifiers - are ASCII): an uppercase
letter (code 65-90) is shifted down to its lowercase form (code 97-122),
anything else is unchanged. -/
def pyLowerChar (c : Char) : Char :=
  if 65 ≤ c.toNat ∧ c.toNat ≤ 90 then Char.ofNat (c.toNat + 32) else c

/-- Model of Python `str.lower` (src/gwl.py lines 36, 37, 73). -/
def pyLower (s : String) : String :=
  String.mk (s.data.map pyLowerChar)

/-- Floor of the base-2 logarithm of a natural number, fuel-driven so that the
kernel can evaluate it (`log2Nat n n` is `Nat.log2 n` for `n` not 0). -/
def log2Nat : Nat → Nat → Nat
  | 0, _ => 0
  | f + 1, n => if n ≤ 1 then 0 else log2Nat f (n / 2) + 1

/-- The rational `2 ^ k` for an integer `k`. -/
def pow2 (k : Int) : ℚ :=
  if 0 ≤ k then ((2 ^ k.toNat : ℕ) : ℚ) else (((2 ^ (-k).toNat : ℕ) : ℚ))⁻¹

/-- Floor of the base-2 logarithm of a positive rational. -/
def ratLog2 (q : ℚ) : Int :=
  let a := log2Nat q.num.natAbs q.num.natAbs
  let b := log2Nat q.den q.den
  let e0 : Int := (a : Int) - (b : Int)
  if pow2 e0 ≤ q then e0 else e0 - 1

/-- Floor of a rational as an integer. -/
def ratFloor (q : ℚ) : Int :=
  Int.fdiv q.num (q.den : Int)

/-- Round a rational to the nearest integer, ties to even (the IEEE-754
default rounding used by Python floats). -/
def roundTiesEven (q : ℚ) : Int :=
  let f := ratFloor q
  let r := q - (f : ℚ)
  if r < 1 / 2 then f
  else if 1 / 2 < r then f + 1
  else if f % 2 = 0 then f else f + 1

/-- Round a positive rational to the nearest IEEE-754 binary64 value
(53 significand bits).  Overflow and subnormals are irrelevant for the
program's value range and are not modelled. -/
def roundPosDouble (q : ℚ) : ℚ :=
  let e := ratLog2 q
  ((roundTiesEven (q * pow2 (52 - e)) : ℚ)) * pow2 (e - 52)

/-- Model of a Python float: the rational value of the nearest binary64.
`roundDouble q` is the double produced by the literal or `float(...)`
conversion of the exact decimal value `q`. -/
def roundDouble (q : ℚ) : ℚ :=
  if q = 0 then 0
  else if q < 0 then -roundPosDouble (-q)
  else roundPosDouble q

/-- Model of Python `int(...)` on a float: truncation toward zero. -/
def pyInt (q : ℚ) : Int :=
  if 0 ≤ q then ratFloor q else -ratFloor (-q)

/-- One per-simulation record of the warming-level reference document
(the spec's Per-simulation record). -/
structure Record where
  model : String
  ensemble : String
  exp : String
  start_year : Int
  end_year : Int
deriving DecidableEq

/-- The structured document produced by `yaml.safe_load`: a mapping from
warming-level bucket name to the ordered records of that bucket. -/
abbrev Doc := List (String × List Record)

/-- Model of `pd.json_normalize(yaml, record_path=bucket)`: select the record
sequence stored under the bucket key (a missing key raises `KeyError`). -/
def lookupBucket (d : Doc) (k : String) : Option (List Record) :=
  match d.find? (fun b => b.1 == k) with
  | some b => some b.2
  | none => none

/-- The Python exceptions raised by src/gwl.py, by raise site. -/
inductive GwlError where
  /-- Bare `assert CMIP.lower() in [...]` failed (line 36): `AssertionError`
  with no message. -/
  | assertCmipFailed
  /-- Bare `assert pathway.lower() in [...]` failed (line 37). -/
  | assertPathwayFailed
  /-- Bare `assert float(GWL) in [...]` failed (line 38). -/
  | assertGwlFailed
  /-- The assert on line 44 failed, and evaluating its message f-string raised
  `NameError`, because the message references the undefined name `model`
  (the parameter is called `GCM`).  No message content survives. -/
  | nameErrorModel
  /-- Line 107 references the undefined name `utils`: `NameError`. -/
  | nameErrorUtils
  /-- Exception `KeyError` raised by `json_normalize` for a missing bucket (line 42). -/
  | keyErrorBucket (bucket : String)
  /-- Exception `ValueError` raised on line 48 (empty filter result).  The constructor
  carries the f-string's interpolated values. -/
  | notCalculated (CMIP GCM ensemble pathway : String) (GWL : ℚ)
  /-- Exception `ValueError` raised on line 50 (more than one filter match). -/
  | multipleEntries (CMIP GCM ensemble pathway : String) (GWL : ℚ)
  /-- Exception `ValueError` raised on line 52 (unique match with `end_year == 9999`). -/
  | didNotReach (CMIP GCM ensemble pathway : String) (GWL : ℚ)
deriving DecidableEq

/-- The `str(e)` text of each raised exception, where the claims inspect it.
A bare failed `assert` has the empty string; a `NameError` carries only the
undefined name.  The `ValueError` messages interpolate their payloads (their
exact float formatting is irrelevant to every claim and is elided). -/
def GwlError.message : GwlError → String
  | .assertCmipFailed => ""
  | .assertPathwayFailed => ""
  | .assertGwlFailed => ""
  | .nameErrorModel => "name \x27model\x27 is not defined"
  | .nameErrorUtils => "name \x27utils\x27 is not defined"
  | .keyErrorBucket b => b
  | .notCalculated c g en p _ => "GWL not calculated for " ++ c ++ " " ++ g ++ " " ++ en ++ " " ++ p
  | .multipleEntries c g en p _ => "Multiple entries for " ++ c ++ " " ++ g ++ " " ++ en ++ " " ++ p
  | .didNotReach c g en p _ => c ++ " " ++ g ++ " " ++ en ++ " " ++ p ++ " did not reach GWL"

/-- Which of the three bare validation asserts an error is, if any. -/
def GwlError.isAssert : GwlError → Bool
  | .assertCmipFailed => true
  | .assertPathwayFailed => true
  | .assertGwlFailed => true
  | _ => false

/-- A tag identifying the failure kind, with payloads erased. -/
def GwlError.kindIndex : GwlError → Nat
  | .assertCmipFailed => 0
  | .assertPathwayFailed => 1
  | .assertGwlFailed => 2
  | .nameErrorModel => 3
  | .nameErrorUtils => 4
  | .keyErrorBucket _ => 5
  | .notCalculated _ _ _ _ _ => 6
  | .multipleEntries _ _ _ _ _ => 7
  | .didNotReach _ _ _ _ _ => 8

/-- The allowed CMIP phases (line 36). -/
def cmipOptions : List String := ["cmip5", "cmip6"]

/-- The allowed pathways (line 37). -/
def pathwayOptions : List String :=
  ["rcp26", "rcp45", "rcp85", "ssp126", "ssp245", "ssp370", "ssp585"]

/-- The allowed warming levels (line 38): the doubles denoted by the Python
float literals `[1.0, 1.2, 1.5, 2.0, 3.0, 4.0]`, written as their exact
binary64 rational values (1.2 is not representable; the others are).  The
theorem `gwlOptions_spec` proves each entry equal to `roundDouble` of the
literal's decimal value. -/
def gwlOptions : List ℚ :=
  [1, 5404319552844595 / 4503599627370496, 3 / 2, 2, 3, 4]

/-- Model of `pandas.Series.unique` on the `model` column: distinct values in
first-occurrence order (`seen` accumulates the values already emitted). -/
def uniqueAux (seen : List String) : List String → List String
  | [] => []
  | a :: l => if seen.contains a then uniqueAux seen l else a :: uniqueAux (a :: seen) l

/-- The column view `df['model'].unique()` as a list. -/
def uniqueKeepFirst (l : List String) : List String :=
  uniqueAux [] l

/-- The bucket name of line 42: `f'warming_level_{int(float(GWL)*10)}'`, with
the multiplication by 10 performed in binary64 arithmetic. -/
def bucketName (GWL : ℚ) : String :=
  "warming_level_" ++ toString (pyInt (roundDouble (roundDouble GWL * 10)))

/-- The character-level text of the source document. -/
abbrev Text := List Char

/-- Predicate `leadsWith p s` is true when `p` is an initial segment of `s`. -/
def leadsWith : Text → Text → Bool
  | [], _ => true
  | _ :: _, [] => false
  | a :: as, b :: bs => a == b && leadsWith as bs

/-- Fuel-driven worker for Python `str.replace`: replace each leftmost
non-overlapping occurrence of `pat`, scanning left to right and never
rescanning emitted replacement text.  Fuel `s.length` always suffices. -/
def replaceAllF : Nat → Text → Text → Text → Text
  | 0, _, _, s => s
  | _ + 1, _, _, [] => []
  | f + 1, pat, rep, c :: cs =>
    if leadsWith pat (c :: cs) && !pat.isEmpty then
      rep ++ replaceAllF f pat rep ((c :: cs).drop pat.length)
    else
      c :: replaceAllF f pat rep cs

/-- Model of Python `s.replace(pat, rep)` (replaces every occurrence). -/
def pyReplace (s pat rep : Text) : Text :=
  replaceAllF s.length pat rep s

/-- The entry-marker pattern `"# {"` of line 80. -/
def hashPat : Text := '#' :: " \x7b".data

/-- Its replacement `"- {"`. -/
def dashRep : Text := "- \x7b".data

/-- The trailing annotation `"} -- did not reach N°C"` for the label `lbl`
(lines 81-86). -/
def gwlMarker (lbl : String) : Text :=
  '\x7d' :: (" -- did not reach ".data ++ lbl.data ++ "°C".data)

/-- The replacement `", start_year: 9999, end_year: 9999}"` (lines 81-86). -/
def sentinel9999 : Text :=
  ", start_year: 9999, end_year: 9999".data ++ ['\x7d']

/-- The textual rewrite of `read_GWL_yaml_file` (lines 78-87): the chained
`str.replace` calls, in source order (innermost applied first). -/
def tidy (s : Text) : Text :=
  pyReplace
    (pyReplace
      (pyReplace
        (pyReplace
          (pyReplace
            (pyReplace
              (pyReplace s hashPat dashRep)
              (gwlMarker "1.0") sentinel9999)
            (gwlMarker "1.2") sentinel9999)
          (gwlMarker "1.5") sentinel9999)
        (gwlMarker "2.0") sentinel9999)
      (gwlMarker "3.0") sentinel9999)
    (gwlMarker "4.0") sentinel9999

/-- Model of `read_GWL_yaml_file` (lines 56-89).  `fileFor` is the filesystem
collaborator: it returns the text of the reference file whose path (line 73)
is built from `CMIP.lower()`.  `safeLoad` is the external `yaml.safe_load`
structural parser.  The function tidies the raw text and loads it. -/
def read_GWL_yaml_file (fileFor : String → String) (safeLoad : String → Doc)
    (CMIP : String) : Doc :=
  safeLoad (String.mk (tidy (fileFor (pyLower CMIP)).data))

/-- Model of `get_GWL_syear_eyear` (lines 10-54), the spec's
`resolveYearRange`.  Returns the start and end year of the unique matching
record, or the exception the Python code raises. -/
def get_GWL_syear_eyear (fileFor : String → String) (safeLoad : String → Doc)
    (CMIP GCM ensemble pathway : String) (GWL : ℚ) : Except GwlError (Int × Int) :=
  if pyLower CMIP ∈ cmipOptions then
    if pyLower pathway ∈ pathwayOptions then
      if roundDouble GWL ∈ gwlOptions then
        match lookupBucket (read_GWL_yaml_file fileFor safeLoad CMIP) (bucketName GWL) with
        | none => .error (.keyErrorBucket (bucketName GWL))
        | some df =>
          if GCM ∈ uniqueKeepFirst (df.map Record.model) then
            match df.filter (fun r => r.model == GCM && r.ensemble == ensemble && r.exp == pathway) with
            | [] => .error (.notCalculated CMIP GCM ensemble pathway GWL)
            | [r] =>
              if r.end_year = 9999 then .error (.didNotReach CMIP GCM ensemble pathway GWL)
              else .ok (r.start_year, r.end_year)
            | _ => .error (.multipleEntries CMIP GCM ensemble pathway GWL)
          else .error .nameErrorModel
      else .error .assertGwlFailed
    else .error .assertPathwayFailed
  else .error .assertCmipFailed

/-- Model of `get_GWL_timeslice` (lines 120-147), the spec's
`sliceToTimeslice`.  `sel` is the dataset collaborator
`ds.sel(time=slice(start, end))`, taking the two date strings. -/
def get_GWL_timeslice {α : Type} (sel : String → String → α)
    (fileFor : String → String) (safeLoad : String → Doc)
    (CMIP GCM ensemble pathway : String) (GWL : ℚ) : Except GwlError α :=
  match get_GWL_syear_eyear fileFor safeLoad CMIP GCM ensemble pathway GWL with
  | .error e => .error e
  | .ok (syear, eyear) =>
    .ok (sel (toString syear ++ "-01-01") (toString eyear ++ "-12-31"))

/-- Model of `get_GWL_lookup_table` (lines 91-118).  Its first statement
(line 107) reads `utils.gwl.get_GWL_lookup_table('CMIP6')`, but no name
`utils` exists in the module, so every call raises `NameError` before doing
anything; the remaining lines are unreachable (they are modelled separately
as `lookupTableBody`). -/
def get_GWL_lookup_table (_CMIP : String) : Except GwlError (List (String × Record)) :=
  .error .nameErrorUtils

/-- The dead code of lines 108-116: given a parsed document `yml`, build one
frame per bucket tagged with the bucket key, concatenate them in key order
preserving per-bucket order, then apply
`df['GWL'].str.replace('warming_level_', 'gwl')` to the tag column. -/
def lookupTableBody (yml : Doc) : List (String × Record) :=
  let appended := yml.map (fun b => b.2.map (fun r => (b.1, r)))
  let df := appended.flatten
  df.map (fun row => (String.mk (pyReplace row.1.data "warming_level_".data "gwl".data), row.2))

/-- Newline-joined lines, as the raw document file is line-organized. -/
def joinLines : List Text → Text
  | [] => []
  | [l] => l
  | l :: ls => l ++ '\n' :: joinLines ls

/-- A raw not-reached record line of the reference document, e.g.
`  # {model: M, ensemble: E, exp: X} -- did not reach 2.0°C`. -/
def notReachedLine (indent m e x : Text) (lbl : String) : Text :=
  indent ++ hashPat ++ "model: ".data ++ m ++ ", ensemble: ".data ++ e ++
    ", exp: ".data ++ x ++ gwlMarker lbl

/-- The flow-mapping rendering of one record entry,
`{model: M, ensemble: E, exp: X, start_year: S, end_year: E}`. -/
def renderFlow (m e x sy ey : Text) : Text :=
  "\x7bmodel: ".data ++ m ++ ", ensemble: ".data ++ e ++ ", exp: ".data ++ x ++
    ", start_year: ".data ++ sy ++ ", end_year: ".data ++ ey ++ ['\x7d']

/-- Strip a leading pattern, or fail. -/
def stripLead (pat s : Text) : Option Text :=
  if leadsWith pat s then some (s.drop pat.length) else none

/-- Split a text at the first occurrence of `pat`: returns the part before
the occurrence and the part after it. -/
def takeUntilPat (pat : Text) : Text → Option (Text × Text)
  | [] => none
  | c :: cs =>
    if leadsWith pat (c :: cs) && !pat.isEmpty then some ([], (c :: cs).drop pat.length)
    else
      match takeUntilPat pat cs with
      | some (pre, post) => some (c :: pre, post)
      | none => none

/-- Parse a decimal natural number. -/
def parseNatL (s : Text) : Option Nat :=
  if !s.isEmpty && s.all Char.isDigit then
    some (s.foldl (fun acc c => acc * 10 + (c.toNat - 48)) 0)
  else none

/-- Model of the external `yaml.safe_load` collaborator on one flow-mapping
record entry of the reference document: parse
`{model: M, ensemble: E, exp: X, start_year: S, end_year: E}` into a
`Record`. -/
def parseFlowRecord (s : Text) : Option Record := do
  let s1 ← stripLead "\x7bmodel: ".data s
  let (m, s2) ← takeUntilPat (',' :: " ensemble: ".data) s1
  let (e, s3) ← takeUntilPat (',' :: " exp: ".data) s2
  let (x, s4) ← takeUntilPat (',' :: " start_year: ".data) s3
  let (sy, s5) ← takeUntilPat (',' :: " end_year: ".data) s4
  let (ey, s6) ← takeUntilPat ['\x7d'] s5
  if s6 = [] then do
    let sn ← parseNatL sy
    let en ← parseNatL ey
    some ⟨m.asString, e.asString, x.asString, (sn : Int), (en : Int)⟩
  else none

/-- Substring test (used to inspect error messages). -/
def containsSub (pat : Text) : Text → Bool
  | [] => pat.isEmpty
  | c :: cs => leadsWith pat (c :: cs) || containsSub pat cs

/-- Two resolver results have the same outcome: equal values on success, the
same failure kind on error. -/
def sameOutcome (r₁ r₂ : Except GwlError (Int × Int)) : Prop :=
  match r₁, r₂ with
  | .ok p, .ok q => p = q
  | .error e₁, .error e₂ => e₁.kindIndex = e₂.kindIndex
  | _, _ => False

/-- A demonstration record: the spec's running example. -/
def demoRecord : Record :=
  ⟨"ACCESS-ESM1-5", "r1i1p1f1", "ssp585", 2032, 2051⟩

/-- A demonstration document with a single bucket holding `demoRecord`. -/
def demoDoc : Doc :=
  [("warming_level_20", [demoRecord])]

/-- A filesystem collaborator (its content is irrelevant when paired with a
constant `safeLoad`). -/
def demoFile : String → String := fun _ => ""

/-- A `yaml.safe_load` collaborator returning `demoDoc`. -/
def demoLoad : String → Doc := fun _ => demoDoc

/-- A record whose `start_year` carries the 9999 sentinel but whose
`end_year` does not (for the C10 witness). -/
def oddRecord : Record :=
  ⟨"ACCESS-ESM1-5", "r1i1p1f1", "ssp585", 9999, 2051⟩

/-- A document holding `oddRecord`. -/
def oddLoad : String → Doc := fun _ => [("warming_level_20", [oddRecord])]

/-- A record that never reaches its warming level. -/
def notReachedRecord : Record :=
  ⟨"ACCESS-ESM1-5", "r1i1p1f1", "ssp585", 9999, 9999⟩

/-- A document holding `notReachedRecord`. -/
def nrLoad : String → Doc := fun _ => [("warming_level_20", [notReachedRecord])]

/-- A second record for the same simulation with different years (a
data-integrity violation in the reference document). -/
def demoRecord2 : Record :=
  ⟨"ACCESS-ESM1-5", "r1i1p1f1", "ssp585", 2040, 2059⟩

/-- A document whose bucket holds two records for the same
(model, ensemble, exp) triple. -/
def twinLoad : String → Doc :=
  fun _ => [("warming_level_20", [demoRecord, demoRecord2])]

example : pyLower "CMIP6" = "cmip6" := by decide
example : bucketName (6 / 5) = "warming_level_12" := by with_unfolding_all rfl
example : bucketName 2 = "warming_level_20" := by with_unfolding_all rfl
example : roundDouble (5 / 2) ∉ gwlOptions := of_decide_eq_true (by with_unfolding_all rfl)
example : roundDouble 2 ∈ gwlOptions := of_decide_eq_true (by with_unfolding_all rfl)
example : pyReplace "a# \x7bzz".data hashPat dashRep = "a- \x7bzz".data := by decide
example : get_GWL_syear_eyear demoFile demoLoad "CMIP6" "ACCESS-ESM1-5" "r1i1p1f1" "ssp585" 2 = .ok (2032, 2051) := by with_unfolding_all rfl
example : get_GWL_syear_eyear demoFile demoLoad "CMIP6" "ACCESS-ESM1-5" "r1i1p1f1" "SSP585" 2 = .error (.notCalculated "CMIP6" "ACCESS-ESM1-5" "r1i1p1f1" "SSP585" 2) := by with_unfolding_all rfl
example : get_GWL_syear_eyear demoFile demoLoad "CMIP6" "NOPE" "r1i1p1f1" "ssp585" 2 = .error .nameErrorModel := by with_unfolding_all rfl
example : get_GWL_syear_eyear demoFile demoLoad "cmip6" "ACCESS-ESM1-5" "r1i1p1f1" "ssp585" (5 / 2) = .error .assertGwlFailed := by with_unfolding_all rfl
example : get_GWL_syear_eyear demoFile demoLoad "CMIP6" "ACCESS-ESM1-5" "r1i1p1f1" "ssp585" 3 = .error (.keyErrorBucket "warming_level_30") := by with_unfolding_all rfl
example : parseFlowRecord (renderFlow "A".data "r1".data "ssp585".data "9999".data "9999".data) = some ⟨"A", "r1", "ssp585", 9999, 9999⟩ := by with_unfolding_all rfl
example : tidy (notReachedLine "  ".data "A".data "r1".data "ssp585".data "2.0") = "  - \x7bmodel: A, ensemble: r1, exp: ssp585, start_year: 9999, end_year: 9999\x7d".data := by with_unfolding_all rfl

/-! Basic lemmas about the embedded helpers. -/

/-- Each entry of `gwlOptions` is the binary64 rounding of the decimal value
of the corresponding Python float literal on line 38. -/
theorem gwlOptions_spec :
    gwlOptions = [roundDouble 1, roundDouble (6 / 5), roundDouble (3 / 2),
      roundDouble 2, roundDouble 3, roundDouble 4] := by
  with_unfolding_all rfl

theorem toNat_ofNat_valid (n : Nat) (h : n.isValidChar) : (Char.ofNat n).toNat = n := by
  unfold Char.ofNat
  rw [dif_pos h]
  rfl

theorem pyLowerChar_idem (c : Char) : pyLowerChar (pyLowerChar c) = pyLowerChar c := by
  by_cases h : 65 ≤ c.toNat ∧ c.toNat ≤ 90
  · have h1 : pyLowerChar c = Char.ofNat (c.toNat + 32) := by rw [pyLowerChar, if_pos h]
    have hv : (c.toNat + 32).isValidChar := Or.inl (by omega)
    rw [h1, pyLowerChar, toNat_ofNat_valid _ hv, if_neg (by omega)]
  · have h1 : pyLowerChar c = c := by rw [pyLowerChar, if_neg h]
    rw [h1, pyLowerChar, if_neg h]

theorem pyLower_idem (s : String) : pyLower (pyLower s) = pyLower s := by
  show String.mk (((s.data.map pyLowerChar)).map pyLowerChar) = String.mk (s.data.map pyLowerChar)
  rw [List.map_map]
  exact congrArg String.mk (List.map_congr_left fun a _ => pyLowerChar_idem a)

theorem mem_uniqueAux (x : String) (l : List String) :
    ∀ seen, x ∈ l → x ∉ seen → x ∈ uniqueAux seen l := by
  induction l with
  | nil => intro seen h _; cases h
  | cons a t ih =>
    intro seen hx hs
    by_cases hc : seen.contains a = true
    · rw [uniqueAux, if_pos hc]
      rcases List.mem_cons.mp hx with rfl | hxt
      · exact absurd (List.elem_iff.mp hc) hs
      · exact ih seen hxt hs
    · rw [uniqueAux, if_neg hc]
      rcases List.mem_cons.mp hx with rfl | hxt
      · exact List.mem_cons_self x _
      · by_cases hxa : x = a
        · subst hxa; exact List.mem_cons_self x _
        · refine List.mem_cons_of_mem a (ih (a :: seen) hxt ?_)
          intro hmem
          rcases List.mem_cons.mp hmem with h2 | h2
          · exact hxa h2
          · exact hs h2

theorem mem_uniqueKeepFirst (x : String) (l : List String) (h : x ∈ l) :
    x ∈ uniqueKeepFirst l :=
  mem_uniqueAux x l [] h (List.not_mem_nil x)

/-! Lemmas about `leadsWith` and `pyReplace`. -/

theorem leadsWith_append_self (p b : Text) : leadsWith p (p ++ b) = true := by
  induction p with
  | nil => rfl
  | cons a as ih => simp [leadsWith, ih]

theorem leadsWith_of_append {p : Text} (r : Text) :
    ∀ a : Text, leadsWith p (a ++ r) = true → p.length ≤ a.length → leadsWith p a = true := by
  induction p with
  | nil => intro a _ _; rfl
  | cons q qs ih =>
    intro a h hl
    cases a with
    | nil => simp at hl
    | cons d ds =>
      simp only [List.cons_append, leadsWith, Bool.and_eq_true, beq_iff_eq] at h
      simp only [leadsWith, Bool.and_eq_true, beq_iff_eq]
      refine ⟨h.1, ih ds h.2 ?_⟩
      simpa using Nat.le_of_succ_le_succ (by simpa using hl)

theorem leadsWith_append_of {p : Text} (r : Text) :
    ∀ a : Text, leadsWith p a = true → leadsWith p (a ++ r) = true := by
  induction p with
  | nil => intro a _; rfl
  | cons q qs ih =>
    intro a h
    cases a with
    | nil => simp [leadsWith] at h
    | cons d ds =>
      simp only [leadsWith, Bool.and_eq_true, beq_iff_eq] at h
      simp only [List.cons_append, leadsWith, Bool.and_eq_true, beq_iff_eq]
      exact ⟨h.1, ih ds h.2⟩

theorem leadsWith_over (c : Char) :
    ∀ (a p b : Text), leadsWith p (a ++ c :: b) = true → a.length < p.length → c ∈ p := by
  intro a
  induction a with
  | nil =>
    intro p b h hl
    cases p with
    | nil => simp at hl
    | cons q qs =>
      simp only [List.nil_append, leadsWith, Bool.and_eq_true, beq_iff_eq] at h
      simp [h.1]
  | cons d ds ih =>
    intro p b h hl
    cases p with
    | nil => simp at hl
    | cons q qs =>
      simp only [List.cons_append, leadsWith, Bool.and_eq_true, beq_iff_eq] at h
      refine List.mem_cons_of_mem q (ih qs b h.2 ?_)
      simpa using Nat.lt_of_succ_lt_succ (by simpa using hl)

theorem leadsWith_drop_eq {p : Text} :
    ∀ s : Text, leadsWith p s = true → s = p ++ s.drop p.length := by
  induction p with
  | nil => intro s _; rfl
  | cons q qs ih =>
    intro s h
    cases s with
    | nil => simp [leadsWith] at h
    | cons b bs =>
      simp only [leadsWith, Bool.and_eq_true, beq_iff_eq] at h
      simp only [List.cons_append, List.length_cons, List.drop_succ_cons]
      rw [h.1]
      exact congrArg (b :: ·) (ih bs h.2)

theorem replaceAllF_congr : ∀ (f g : Nat) (pat rep s : Text), s.length ≤ f → s.length ≤ g →
    replaceAllF f pat rep s = replaceAllF g pat rep s := by
  intro f
  induction f with
  | zero =>
    intro g pat rep s hf _
    have hs : s = [] := List.eq_nil_of_length_eq_zero (Nat.le_zero.mp hf)
    subst hs
    cases g <;> rfl
  | succ f ih =>
    intro g pat rep s hf hg
    cases s with
    | nil => cases g <;> rfl
    | cons c cs =>
      rw [List.length_cons] at hf hg
      cases g with
      | zero => omega
      | succ g2 =>
        simp only [replaceAllF]
        by_cases h : (leadsWith pat (c :: cs) && !pat.isEmpty) = true
        · rw [if_pos h, if_pos h]
          congr 1
          have hp : 1 ≤ pat.length := by
            rcases pat with _ | ⟨x, xs⟩
            · simp at h
            · simp
          have hd : ((c :: cs).drop pat.length).length ≤ f := by
            rw [List.length_drop, List.length_cons]; omega
          have hd2 : ((c :: cs).drop pat.length).length ≤ g2 := by
            rw [List.length_drop, List.length_cons]; omega
          exact ih g2 pat rep _ hd hd2
        · rw [if_neg h, if_neg h]
          exact congrArg (c :: ·) (ih g2 pat rep cs (by omega) (by omega))

theorem pyReplace_nil (pat rep : Text) : pyReplace [] pat rep = [] := rfl

theorem pyReplace_cons_no (pat rep : Text) (c : Char) (cs : Text)
    (h : ¬ (leadsWith pat (c :: cs) && !pat.isEmpty) = true) :
    pyReplace (c :: cs) pat rep = c :: pyReplace cs pat rep := by
  unfold pyReplace
  rw [List.length_cons]
  simp only [replaceAllF]
  rw [if_neg h]

theorem pyReplace_cons_yes (p0 : Char) (ps rep : Text) (c : Char) (cs : Text)
    (h : leadsWith (p0 :: ps) (c :: cs) = true) :
    pyReplace (c :: cs) (p0 :: ps) rep
      = rep ++ pyReplace ((c :: cs).drop (p0 :: ps).length) (p0 :: ps) rep := by
  unfold pyReplace
  rw [List.length_cons]
  simp only [replaceAllF]
  rw [if_pos (by simp [h])]
  congr 1
  apply replaceAllF_congr
  · rw [List.length_drop, List.length_cons, List.length_cons]; omega
  · exact le_refl _

theorem pyReplace_skip (p0 : Char) (ps rep : Text) :
    ∀ (a b : Text), p0 ∉ a →
      pyReplace (a ++ b) (p0 :: ps) rep = a ++ pyReplace b (p0 :: ps) rep := by
  intro a
  induction a with
  | nil => intro b _; rfl
  | cons d ds ih =>
    intro b hd
    have hdp : ¬ p0 = d := fun hh => hd (by rw [hh]; exact List.mem_cons_self d ds)
    rw [List.cons_append, pyReplace_cons_no]
    · rw [ih b (fun hm => hd (List.mem_cons_of_mem d hm)), List.cons_append]
    · simp only [leadsWith, Bool.and_eq_true, beq_iff_eq, Bool.not_eq_true, not_and]
      intro hcon
      exact absurd hcon.1 hdp

theorem pyReplace_notOccur (p0 : Char) (ps rep s : Text) (h : p0 ∉ s) :
    pyReplace s (p0 :: ps) rep = s := by
  have hs := pyReplace_skip p0 ps rep s [] h
  simpa [pyReplace_nil] using hs

theorem pyReplace_once (p0 : Char) (ps rep : Text) (a b : Text) (ha : p0 ∉ a) :
    pyReplace (a ++ (p0 :: ps) ++ b) (p0 :: ps) rep
      = a ++ rep ++ pyReplace b (p0 :: ps) rep := by
  rw [List.append_assoc, pyReplace_skip p0 ps rep a ((p0 :: ps) ++ b) ha]
  rw [show (p0 :: ps) ++ b = p0 :: (ps ++ b) from rfl]
  rw [pyReplace_cons_yes p0 ps rep p0 (ps ++ b)
    (by rw [show p0 :: (ps ++ b) = (p0 :: ps) ++ b from rfl]; exact leadsWith_append_self _ b)]
  rw [show p0 :: (ps ++ b) = (p0 :: ps) ++ b from rfl, List.drop_left, List.append_assoc]

theorem pyReplace_sep (p0 : Char) (ps rep : Text) (c : Char) (hc : c ∉ p0 :: ps) :
    ∀ (a b : Text), pyReplace (a ++ c :: b) (p0 :: ps) rep
      = pyReplace a (p0 :: ps) rep ++ c :: pyReplace b (p0 :: ps) rep := by
  have hc0 : ¬ p0 = c := fun h => hc (by rw [h]; exact List.mem_cons_self c ps)
  have base : ∀ b : Text, pyReplace (c :: b) (p0 :: ps) rep = c :: pyReplace b (p0 :: ps) rep := by
    intro b
    rw [pyReplace_cons_no]
    simp only [leadsWith, Bool.and_eq_true, beq_iff_eq, Bool.not_eq_true, not_and]
    intro hcon
    exact absurd hcon.1 hc0
  have main : ∀ (n : Nat) (a b : Text), a.length ≤ n →
      pyReplace (a ++ c :: b) (p0 :: ps) rep
        = pyReplace a (p0 :: ps) rep ++ c :: pyReplace b (p0 :: ps) rep := by
    intro n
    induction n with
    | zero =>
      intro a b ha
      have hz : a = [] := List.eq_nil_of_length_eq_zero (Nat.le_zero.mp ha)
      subst hz
      simpa [pyReplace_nil] using base b
    | succ n ih =>
      intro a b ha
      cases a with
      | nil => simpa [pyReplace_nil] using base b
      | cons d ds =>
        rw [List.length_cons] at ha
        by_cases hL : leadsWith (p0 :: ps) (d :: (ds ++ c :: b)) = true
        · have hlen : (p0 :: ps).length ≤ (d :: ds).length := by
            by_contra hgt
            push_neg at hgt
            refine hc (leadsWith_over c (d :: ds) (p0 :: ps) b ?_ hgt)
            rw [List.cons_append]
            exact hL
          have hpre : leadsWith (p0 :: ps) (d :: ds) = true := by
            refine leadsWith_of_append (c :: b) (d :: ds) ?_ hlen
            rw [List.cons_append]
            exact hL
          rw [List.cons_append, pyReplace_cons_yes p0 ps rep d (ds ++ c :: b) hL]
          rw [pyReplace_cons_yes p0 ps rep d ds hpre]
          have hdrop : (d :: (ds ++ c :: b)).drop (p0 :: ps).length
              = ((d :: ds).drop (p0 :: ps).length) ++ c :: b := by
            rw [show d :: (ds ++ c :: b) = (d :: ds) ++ (c :: b) from rfl]
            exact List.drop_append_of_le_length hlen
          rw [hdrop]
          have hdlen : (((d :: ds).drop (p0 :: ps).length)).length ≤ n := by
            rw [List.length_drop, List.length_cons, List.length_cons]
            omega
          rw [ih _ b hdlen, List.append_assoc]
        · have hpre : ¬ leadsWith (p0 :: ps) (d :: ds) = true := by
            intro hp
            refine hL ?_
            have := leadsWith_append_of (c :: b) (d :: ds) hp
            rw [List.cons_append] at this
            exact this
          rw [List.cons_append, pyReplace_cons_no _ _ d _ (by simp [hL]),
            pyReplace_cons_no _ _ d ds (by simp [hpre])]
          rw [ih ds b (by omega), List.cons_append]
  intro a b
  exact main a.length a b (le_refl _)

theorem pyReplace_joinLines (pat rep : Text) (hp : pat ≠ []) (hnl : '\n' ∉ pat) :
    ∀ ls : List Text, pyReplace (joinLines ls) pat rep
      = joinLines (ls.map (fun l => pyReplace l pat rep)) := by
  rcases pat with _ | ⟨p0, ps⟩
  · exact absurd rfl hp
  intro ls
  induction ls with
  | nil => rfl
  | cons l ls ih =>
    cases ls with
    | nil => rfl
    | cons l2 ls2 =>
      show pyReplace (l ++ '\n' :: joinLines (l2 :: ls2)) (p0 :: ps) rep = _
      rw [pyReplace_sep p0 ps rep '\n' hnl l (joinLines (l2 :: ls2)), ih]
      rfl

theorem tidy_joinLines (ls : List Text) : tidy (joinLines ls) = joinLines (ls.map tidy) := by
  unfold tidy
  rw [pyReplace_joinLines hashPat dashRep (by decide) (by decide) ls]
  rw [pyReplace_joinLines (gwlMarker "1.0") sentinel9999 (by decide) (by decide)]
  rw [pyReplace_joinLines (gwlMarker "1.2") sentinel9999 (by decide) (by decide)]
  rw [pyReplace_joinLines (gwlMarker "1.5") sentinel9999 (by decide) (by decide)]
  rw [pyReplace_joinLines (gwlMarker "2.0") sentinel9999 (by decide) (by decide)]
  rw [pyReplace_joinLines (gwlMarker "3.0") sentinel9999 (by decide) (by decide)]
  rw [pyReplace_joinLines (gwlMarker "4.0") sentinel9999 (by decide) (by decide)]
  simp only [List.map_map]
  exact congrArg joinLines (List.map_congr_left fun l _ => rfl)

/-! Reduction of the resolver under its guards, and the per-claim theorems
about it. -/

theorem resolver_reduce (fileFor : String → String) (safeLoad : String → Doc)
    (CMIP GCM ensemble pathway : String) (GWL : ℚ) (df : List Record)
    (h1 : pyLower CMIP ∈ cmipOptions) (h2 : pyLower pathway ∈ pathwayOptions)
    (h3 : roundDouble GWL ∈ gwlOptions)
    (hb : lookupBucket (read_GWL_yaml_file fileFor safeLoad CMIP) (bucketName GWL) = some df)
    (hm : GCM ∈ uniqueKeepFirst (df.map Record.model)) :
    get_GWL_syear_eyear fileFor safeLoad CMIP GCM ensemble pathway GWL
      = match df.filter (fun r => r.model == GCM && r.ensemble == ensemble && r.exp == pathway) with
        | [] => .error (.notCalculated CMIP GCM ensemble pathway GWL)
        | [r] =>
          if r.end_year = 9999 then .error (.didNotReach CMIP GCM ensemble pathway GWL)
          else .ok (r.start_year, r.end_year)
        | _ => .error (.multipleEntries CMIP GCM ensemble pathway GWL) := by
  unfold get_GWL_syear_eyear
  rw [if_pos h1, if_pos h2, if_pos h3, hb]
  exact if_pos hm

/-- C1: for every query that passes validation and whose filtered record set
(records of the requested warming-level bucket with the query's model,
ensemble and pathway) contains exactly one record `r`: if `r.end_year` is
9999 the resolver fails with the ThresholdNotReached error of line 52,
otherwise it returns `(r.start_year, r.end_year)`. -/
theorem c1_resolveYearRange_unique_match
    (fileFor : String → String) (safeLoad : String → Doc)
    (CMIP GCM ensemble pathway : String) (GWL : ℚ) (df : List Record) (r : Record)
    (h1 : pyLower CMIP ∈ cmipOptions) (h2 : pyLower pathway ∈ pathwayOptions)
    (h3 : roundDouble GWL ∈ gwlOptions)
    (hb : lookupBucket (read_GWL_yaml_file fileFor safeLoad CMIP) (bucketName GWL) = some df)
    (hf : df.filter (fun t => t.model == GCM && t.ensemble == ensemble && t.exp == pathway) = [r]) :
    get_GWL_syear_eyear fileFor safeLoad CMIP GCM ensemble pathway GWL
      = if r.end_year = 9999 then .error (.didNotReach CMIP GCM ensemble pathway GWL)
        else .ok (r.start_year, r.end_year) := by
  have hr : r ∈ df.filter (fun t => t.model == GCM && t.ensemble == ensemble && t.exp == pathway) := by
    rw [hf]; exact List.mem_cons_self r []
  have hmem := List.mem_filter.mp hr
  have hmodel : r.model = GCM := by
    have h := hmem.2
    simp only [Bool.and_eq_true, beq_iff_eq] at h
    exact h.1.1
  have hm : GCM ∈ uniqueKeepFirst (df.map Record.model) :=
    mem_uniqueKeepFirst _ _ (List.mem_map.mpr ⟨r, hmem.1, hmodel⟩)
  rw [resolver_reduce fileFor safeLoad CMIP GCM ensemble pathway GWL df h1 h2 h3 hb hm, hf]

/-- Witness for C1: the spec's running example query succeeds with
(2032, 2051). -/
theorem c1_resolveYearRange_unique_match_witness :
    get_GWL_syear_eyear demoFile demoLoad "CMIP6" "ACCESS-ESM1-5" "r1i1p1f1" "ssp585" 2
      = .ok (2032, 2051) := by
  have h := c1_resolveYearRange_unique_match demoFile demoLoad "CMIP6" "ACCESS-ESM1-5"
    "r1i1p1f1" "ssp585" 2 [demoRecord] demoRecord
    (of_decide_eq_true (by with_unfolding_all rfl))
    (of_decide_eq_true (by with_unfolding_all rfl))
    (of_decide_eq_true (by with_unfolding_all rfl))
    (by with_unfolding_all rfl)
    (by with_unfolding_all rfl)
  rw [h, if_neg (of_decide_eq_false (by with_unfolding_all rfl))]
  with_unfolding_all rfl

/-- C2: for every query that passes validation and the model-presence check,
a filter with zero matches fails with the NotCalculated error of line 48 and
a filter with more than one match fails with the AmbiguousEntry error of
line 50, never returning a year range. -/
theorem c2_resolveYearRange_zero_or_multi
    (fileFor : String → String) (safeLoad : String → Doc)
    (CMIP GCM ensemble pathway : String) (GWL : ℚ) (df : List Record)
    (h1 : pyLower CMIP ∈ cmipOptions) (h2 : pyLower pathway ∈ pathwayOptions)
    (h3 : roundDouble GWL ∈ gwlOptions)
    (hb : lookupBucket (read_GWL_yaml_file fileFor safeLoad CMIP) (bucketName GWL) = some df)
    (hm : GCM ∈ uniqueKeepFirst (df.map Record.model)) :
    (df.filter (fun t => t.model == GCM && t.ensemble == ensemble && t.exp == pathway) = [] →
      get_GWL_syear_eyear fileFor safeLoad CMIP GCM ensemble pathway GWL
        = .error (.notCalculated CMIP GCM ensemble pathway GWL))
    ∧ (∀ (r1 r2 : Record) (t : List Record),
        df.filter (fun t => t.model == GCM && t.ensemble == ensemble && t.exp == pathway)
          = r1 :: r2 :: t →
        get_GWL_syear_eyear fileFor safeLoad CMIP GCM ensemble pathway GWL
          = .error (.multipleEntries CMIP GCM ensemble pathway GWL)) := by
  constructor
  · intro hf
    rw [resolver_reduce fileFor safeLoad CMIP GCM ensemble pathway GWL df h1 h2 h3 hb hm, hf]
  · intro r1 r2 t hf
    rw [resolver_reduce fileFor safeLoad CMIP GCM ensemble pathway GWL df h1 h2 h3 hb hm, hf]

/-- Witness for C2: an unknown ensemble member gives NotCalculated; a
duplicated (model, ensemble, exp) triple gives the AmbiguousEntry error. -/
theorem c2_resolveYearRange_zero_or_multi_witness :
    get_GWL_syear_eyear demoFile demoLoad "CMIP6" "ACCESS-ESM1-5" "r9i9p9f9" "ssp585" 2
      = .error (.notCalculated "CMIP6" "ACCESS-ESM1-5" "r9i9p9f9" "ssp585" 2)
    ∧ get_GWL_syear_eyear demoFile twinLoad "CMIP6" "ACCESS-ESM1-5" "r1i1p1f1" "ssp585" 2
      = .error (.multipleEntries "CMIP6" "ACCESS-ESM1-5" "r1i1p1f1" "ssp585" 2) := by
  constructor
  · exact (c2_resolveYearRange_zero_or_multi demoFile demoLoad "CMIP6" "ACCESS-ESM1-5"
      "r9i9p9f9" "ssp585" 2 [demoRecord]
      (of_decide_eq_true (by with_unfolding_all rfl))
      (of_decide_eq_true (by with_unfolding_all rfl))
      (of_decide_eq_true (by with_unfolding_all rfl))
      (by with_unfolding_all rfl)
      (of_decide_eq_true (by with_unfolding_all rfl))).1 (by with_unfolding_all rfl)
  · exact (c2_resolveYearRange_zero_or_multi demoFile twinLoad "CMIP6" "ACCESS-ESM1-5"
      "r1i1p1f1" "ssp585" 2 [demoRecord, demoRecord2]
      (of_decide_eq_true (by with_unfolding_all rfl))
      (of_decide_eq_true (by with_unfolding_all rfl))
      (of_decide_eq_true (by with_unfolding_all rfl))
      (by with_unfolding_all rfl)
      (of_decide_eq_true (by with_unfolding_all rfl))).2 demoRecord demoRecord2 []
      (by with_unfolding_all rfl)

/-- C10: on a unique filter match the threshold classification inspects only
`end_year`: the call fails with ThresholdNotReached exactly when `end_year`
is 9999, and a record with `start_year = 9999` but `end_year` different from
9999 is returned as the pair (9999, end_year), not rejected. -/
theorem c10_threshold_check_end_year_only
    (fileFor : String → String) (safeLoad : String → Doc)
    (CMIP GCM ensemble pathway : String) (GWL : ℚ) (df : List Record) (r : Record)
    (h1 : pyLower CMIP ∈ cmipOptions) (h2 : pyLower pathway ∈ pathwayOptions)
    (h3 : roundDouble GWL ∈ gwlOptions)
    (hb : lookupBucket (read_GWL_yaml_file fileFor safeLoad CMIP) (bucketName GWL) = some df)
    (hf : df.filter (fun t => t.model == GCM && t.ensemble == ensemble && t.exp == pathway) = [r]) :
    (get_GWL_syear_eyear fileFor safeLoad CMIP GCM ensemble pathway GWL
        = .error (.didNotReach CMIP GCM ensemble pathway GWL) ↔ r.end_year = 9999)
    ∧ (r.start_year = 9999 → r.end_year ≠ 9999 →
        get_GWL_syear_eyear fileFor safeLoad CMIP GCM ensemble pathway GWL
          = .ok (9999, r.end_year)) := by
  have hr : r ∈ df.filter (fun t => t.model == GCM && t.ensemble == ensemble && t.exp == pathway) := by
    rw [hf]; exact List.mem_cons_self r []
  have hmem := List.mem_filter.mp hr
  have hmodel : r.model = GCM := by
    have h := hmem.2
    simp only [Bool.and_eq_true, beq_iff_eq] at h
    exact h.1.1
  have hm : GCM ∈ uniqueKeepFirst (df.map Record.model) :=
    mem_uniqueKeepFirst _ _ (List.mem_map.mpr ⟨r, hmem.1, hmodel⟩)
  have base : get_GWL_syear_eyear fileFor safeLoad CMIP GCM ensemble pathway GWL
      = if r.end_year = 9999 then .error (.didNotReach CMIP GCM ensemble pathway GWL)
        else .ok (r.start_year, r.end_year) := by
    rw [resolver_reduce fileFor safeLoad CMIP GCM ensemble pathway GWL df h1 h2 h3 hb hm, hf]
  constructor
  · constructor
    · intro h
      by_contra he
      rw [base, if_neg he] at h
      exact Except.noConfusion h
    · intro he
      rw [base, if_pos he]
  · intro hs he
    rw [base, if_neg he, hs]

/-- Witness for C10: a unique record with `start_year = 9999` and
`end_year = 2051` is returned, not rejected. -/
theorem c10_threshold_check_end_year_only_witness :
    get_GWL_syear_eyear demoFile oddLoad "CMIP6" "ACCESS-ESM1-5" "r1i1p1f1" "ssp585" 2
      = .ok (9999, 2051) := by
  have h := (c10_threshold_check_end_year_only demoFile oddLoad "CMIP6" "ACCESS-ESM1-5"
    "r1i1p1f1" "ssp585" 2 [oddRecord] oddRecord
    (of_decide_eq_true (by with_unfolding_all rfl))
    (of_decide_eq_true (by with_unfolding_all rfl))
    (of_decide_eq_true (by with_unfolding_all rfl))
    (by with_unfolding_all rfl)
    (by with_unfolding_all rfl)).2
    (by with_unfolding_all rfl)
    (of_decide_eq_false (by with_unfolding_all rfl))
  exact h

/-- C3 (the code contradicts the intent of its own assert): querying a model
absent from the bucket makes the line-44 assert fail, but evaluating its
message f-string reads the undefined name `model`, so the call raises a bare
NameError carrying no list of known models - here "ACCESS-ESM1-5", the only
model of the bucket, does not occur in the error text. -/
theorem c3_unknown_model_raises_name_error :
    get_GWL_syear_eyear demoFile demoLoad "CMIP6" "NO-SUCH-MODEL" "r1i1p1f1" "ssp585" 2
      = .error .nameErrorModel
    ∧ GwlError.message .nameErrorModel = "name \x27model\x27 is not defined"
    ∧ containsSub "ACCESS-ESM1-5".data (GwlError.message GwlError.nameErrorModel).data = false := by
  refine ⟨by with_unfolding_all rfl, rfl, by with_unfolding_all rfl⟩

/-- C4 counterexample: with GWL = 2.5 the resolver does fail up front, but
with a bare AssertionError whose message is empty - the failure names
neither the offending field nor its allowed set, contrary to the claim. -/
theorem c4_counterexample_no_named_field :
    get_GWL_syear_eyear demoFile demoLoad "cmip6" "ACCESS-ESM1-5" "r1i1p1f1" "ssp585" (5 / 2)
      = .error .assertGwlFailed
    ∧ GwlError.message .assertGwlFailed = "" :=
  ⟨by with_unfolding_all rfl, rfl⟩

/-- C4 amended: a query whose cmipPhase, pathway or warming level is outside
its allowed set fails with a bare assertion error (empty message), and the
result does not depend on the collaborators that fetch and parse the
reference document - the failure happens before any document is read. -/
theorem c4_amended_invalid_argument
    (f1 f2 : String → String) (l1 l2 : String → Doc)
    (CMIP GCM ensemble pathway : String) (GWL : ℚ)
    (h : pyLower CMIP ∉ cmipOptions ∨ pyLower pathway ∉ pathwayOptions
        ∨ roundDouble GWL ∉ gwlOptions) :
    get_GWL_syear_eyear f1 l1 CMIP GCM ensemble pathway GWL
      = get_GWL_syear_eyear f2 l2 CMIP GCM ensemble pathway GWL
    ∧ ∃ e, get_GWL_syear_eyear f1 l1 CMIP GCM ensemble pathway GWL = .error e
        ∧ e.isAssert = true ∧ GwlError.message e = "" := by
  unfold get_GWL_syear_eyear
  by_cases h1 : pyLower CMIP ∈ cmipOptions
  · rw [if_pos h1, if_pos h1]
    by_cases h2 : pyLower pathway ∈ pathwayOptions
    · rw [if_pos h2, if_pos h2]
      have h3 : roundDouble GWL ∉ gwlOptions := by
        rcases h with h | h | h
        · exact absurd h1 h
        · exact absurd h2 h
        · exact h
      rw [if_neg h3, if_neg h3]
      exact ⟨rfl, .assertGwlFailed, rfl, rfl, rfl⟩
    · rw [if_neg h2, if_neg h2]
      exact ⟨rfl, .assertPathwayFailed, rfl, rfl, rfl⟩
  · rw [if_neg h1, if_neg h1]
    exact ⟨rfl, .assertCmipFailed, rfl, rfl, rfl⟩

/-- Witness for the amended C4 at GWL = 2.5, with two different document
collaborators. -/
theorem c4_amended_invalid_argument_witness :
    get_GWL_syear_eyear demoFile demoLoad "cmip6" "m" "e" "ssp585" (5 / 2)
      = get_GWL_syear_eyear demoFile nrLoad "cmip6" "m" "e" "ssp585" (5 / 2)
    ∧ ∃ e, get_GWL_syear_eyear demoFile demoLoad "cmip6" "m" "e" "ssp585" (5 / 2) = .error e
        ∧ e.isAssert = true ∧ GwlError.message e = "" :=
  c4_amended_invalid_argument demoFile demoFile demoLoad nrLoad "cmip6" "m" "e" "ssp585" (5 / 2)
    (.inr (.inr (of_decide_eq_true (by with_unfolding_all rfl))))

theorem lookupTableBody_eq (yml : Doc) :
    lookupTableBody yml
      = yml.flatMap (fun b => b.2.map (fun r =>
          (String.mk (pyReplace b.1.data "warming_level_".data "gwl".data), r))) := by
  unfold lookupTableBody
  induction yml with
  | nil => rfl
  | cons b bs ih =>
    simp only [List.map_cons, List.flatten_cons, List.map_append, List.flatMap_cons, List.map_map]
    rw [ih]
    rfl

/-- C6 (code slip): every call of `get_GWL_lookup_table` raises NameError for
the undefined name `utils` on line 107, whatever its CMIP argument (which the
hardcoded self-call ignores).  The dead concatenate-and-tag code of lines
108-116, modelled as `lookupTableBody`, does satisfy the claimed shape: one
flat table listing each bucket's records in order, bucket after bucket, each
row tagged with its bucket name under the warming_level_N to gwlN mapping,
with total row count the sum of the per-bucket counts. -/
theorem c6_lookup_table :
    (∀ CMIP : String, get_GWL_lookup_table CMIP = .error .nameErrorUtils)
    ∧ (∀ yml : Doc,
        lookupTableBody yml
          = yml.flatMap (fun b => b.2.map (fun r =>
              (String.mk (pyReplace b.1.data "warming_level_".data "gwl".data), r)))
        ∧ (lookupTableBody yml).length = (yml.map (fun b => b.2.length)).sum)
    ∧ String.mk (pyReplace "warming_level_20".data "warming_level_".data "gwl".data) = "gwl20" := by
  refine ⟨fun _ => rfl, fun yml => ⟨lookupTableBody_eq yml, ?_⟩, by with_unfolding_all rfl⟩
  rw [lookupTableBody_eq yml, List.length_flatMap]
  congr 1
  refine List.map_congr_left fun b _ => ?_
  simp [List.length_map]

/-- C8: the bucket name used for the lookup is
`"warming_level_" ++ str(int(GWL * 10))` with the arithmetic done in
binary64, and on the six supported warming levels this is exact:
10, 12, 15, 20, 30 and 40. -/
theorem c8_bucket_name_exact :
    (∀ GWL : ℚ, bucketName GWL
        = "warming_level_" ++ toString (pyInt (roundDouble (roundDouble GWL * 10))))
    ∧ bucketName 1 = "warming_level_10"
    ∧ bucketName (6 / 5) = "warming_level_12"
    ∧ bucketName (3 / 2) = "warming_level_15"
    ∧ bucketName 2 = "warming_level_20"
    ∧ bucketName 3 = "warming_level_30"
    ∧ bucketName 4 = "warming_level_40" := by
  refine ⟨fun _ => rfl, ?_, ?_, ?_, ?_, ?_, ?_⟩ <;> with_unfolding_all rfl

/-- C9: `get_GWL_timeslice` composes the resolver with the dataset
collaborator and nothing else: a resolver failure is returned unchanged, and
a resolved pair (syear, eyear) selects exactly the inclusive range from
January 1 of syear to December 31 of eyear. -/
theorem c9_timeslice_is_composition {α : Type} (sel : String → String → α)
    (fileFor : String → String) (safeLoad : String → Doc)
    (CMIP GCM ensemble pathway : String) (GWL : ℚ) :
    get_GWL_timeslice sel fileFor safeLoad CMIP GCM ensemble pathway GWL
      = Except.map (fun p => sel (toString p.1 ++ "-01-01") (toString p.2 ++ "-12-31"))
          (get_GWL_syear_eyear fileFor safeLoad CMIP GCM ensemble pathway GWL) := by
  unfold get_GWL_timeslice
  cases h : get_GWL_syear_eyear fileFor safeLoad CMIP GCM ensemble pathway GWL with
  | error e => rfl
  | ok p => cases p with | mk a b => rfl

/-! Branch lemmas for the resolver, used for the case-insensitivity claim. -/

theorem resolver_cmip_invalid (fileFor : String → String) (safeLoad : String → Doc)
    (CMIP GCM ensemble pathway : String) (GWL : ℚ)
    (h1 : pyLower CMIP ∉ cmipOptions) :
    get_GWL_syear_eyear fileFor safeLoad CMIP GCM ensemble pathway GWL
      = .error .assertCmipFailed := by
  unfold get_GWL_syear_eyear
  rw [if_neg h1]

theorem resolver_pathway_invalid (fileFor : String → String) (safeLoad : String → Doc)
    (CMIP GCM ensemble pathway : String) (GWL : ℚ)
    (h1 : pyLower CMIP ∈ cmipOptions) (h2 : pyLower pathway ∉ pathwayOptions) :
    get_GWL_syear_eyear fileFor safeLoad CMIP GCM ensemble pathway GWL
      = .error .assertPathwayFailed := by
  unfold get_GWL_syear_eyear
  rw [if_pos h1, if_neg h2]

theorem resolver_gwl_invalid (fileFor : String → String) (safeLoad : String → Doc)
    (CMIP GCM ensemble pathway : String) (GWL : ℚ)
    (h1 : pyLower CMIP ∈ cmipOptions) (h2 : pyLower pathway ∈ pathwayOptions)
    (h3 : roundDouble GWL ∉ gwlOptions) :
    get_GWL_syear_eyear fileFor safeLoad CMIP GCM ensemble pathway GWL
      = .error .assertGwlFailed := by
  unfold get_GWL_syear_eyear
  rw [if_pos h1, if_pos h2, if_neg h3]

theorem resolver_bucket_missing (fileFor : String → String) (safeLoad : String → Doc)
    (CMIP GCM ensemble pathway : String) (GWL : ℚ)
    (h1 : pyLower CMIP ∈ cmipOptions) (h2 : pyLower pathway ∈ pathwayOptions)
    (h3 : roundDouble GWL ∈ gwlOptions)
    (hb : lookupBucket (read_GWL_yaml_file fileFor safeLoad CMIP) (bucketName GWL) = none) :
    get_GWL_syear_eyear fileFor safeLoad CMIP GCM ensemble pathway GWL
      = .error (.keyErrorBucket (bucketName GWL)) := by
  unfold get_GWL_syear_eyear
  rw [if_pos h1, if_pos h2, if_pos h3, hb]

theorem resolver_model_missing (fileFor : String → String) (safeLoad : String → Doc)
    (CMIP GCM ensemble pathway : String) (GWL : ℚ) (df : List Record)
    (h1 : pyLower CMIP ∈ cmipOptions) (h2 : pyLower pathway ∈ pathwayOptions)
    (h3 : roundDouble GWL ∈ gwlOptions)
    (hb : lookupBucket (read_GWL_yaml_file fileFor safeLoad CMIP) (bucketName GWL) = some df)
    (hm : GCM ∉ uniqueKeepFirst (df.map Record.model)) :
    get_GWL_syear_eyear fileFor safeLoad CMIP GCM ensemble pathway GWL
      = .error .nameErrorModel := by
  unfold get_GWL_syear_eyear
  rw [if_pos h1, if_pos h2, if_pos h3, hb]
  exact if_neg hm

theorem sameOutcome_filter_match (CMIP CMIP2 GCM ensemble pathway : String) (GWL : ℚ)
    (l : List Record) :
    sameOutcome
      (match l with
        | [] => .error (.notCalculated CMIP GCM ensemble pathway GWL)
        | [r] =>
          if r.end_year = 9999 then .error (.didNotReach CMIP GCM ensemble pathway GWL)
          else .ok (r.start_year, r.end_year)
        | _ => .error (.multipleEntries CMIP GCM ensemble pathway GWL))
      (match l with
        | [] => .error (.notCalculated CMIP2 GCM ensemble pathway GWL)
        | [r] =>
          if r.end_year = 9999 then .error (.didNotReach CMIP2 GCM ensemble pathway GWL)
          else .ok (r.start_year, r.end_year)
        | _ => .error (.multipleEntries CMIP2 GCM ensemble pathway GWL)) := by
  rcases l with _ | ⟨r, _ | ⟨r2, t⟩⟩
  · rfl
  · show sameOutcome
      (if r.end_year = 9999 then .error (.didNotReach CMIP GCM ensemble pathway GWL)
       else .ok (r.start_year, r.end_year))
      (if r.end_year = 9999 then .error (.didNotReach CMIP2 GCM ensemble pathway GWL)
       else .ok (r.start_year, r.end_year))
    by_cases he : r.end_year = 9999
    · rw [if_pos he, if_pos he]; rfl
    · rw [if_neg he, if_neg he]; rfl
  · rfl

/-- C5 counterexample: the pathway is case-insensitively validated only; the
record filter compares it case-sensitively, so the query with pathway
"SSP585" fails with NotCalculated while the lowercased query returns the
year range - a different result and a different failure kind. -/
theorem c5_counterexample_pathway_case :
    get_GWL_syear_eyear demoFile demoLoad "CMIP6" "ACCESS-ESM1-5" "r1i1p1f1" "SSP585" 2
      = .error (.notCalculated "CMIP6" "ACCESS-ESM1-5" "r1i1p1f1" "SSP585" 2)
    ∧ get_GWL_syear_eyear demoFile demoLoad "CMIP6" "ACCESS-ESM1-5" "r1i1p1f1" "ssp585" 2
      = .ok (2032, 2051) :=
  ⟨by with_unfolding_all rfl, by with_unfolding_all rfl⟩

/-- C5 amended: the lookup is case-insensitive on the CMIP phase: for every
query and every document collaborator, any casing of cmipPhase yields the
same success value or the same failure kind as the lowercased phase (error
payload text may echo the original casing).  The pathway is only
case-insensitively validated; its filter comparison is case-sensitive. -/
theorem c5_amended_phase_case_insensitive
    (fileFor : String → String) (safeLoad : String → Doc)
    (CMIP GCM ensemble pathway : String) (GWL : ℚ) :
    sameOutcome (get_GWL_syear_eyear fileFor safeLoad CMIP GCM ensemble pathway GWL)
      (get_GWL_syear_eyear fileFor safeLoad (pyLower CMIP) GCM ensemble pathway GWL) := by
  have hdoc : read_GWL_yaml_file fileFor safeLoad (pyLower CMIP)
      = read_GWL_yaml_file fileFor safeLoad CMIP := by
    unfold read_GWL_yaml_file
    rw [pyLower_idem]
  have h1l : ∀ h : pyLower CMIP ∈ cmipOptions, pyLower (pyLower CMIP) ∈ cmipOptions := by
    intro h; rw [pyLower_idem]; exact h
  by_cases h1 : pyLower CMIP ∈ cmipOptions
  · by_cases h2 : pyLower pathway ∈ pathwayOptions
    · by_cases h3 : roundDouble GWL ∈ gwlOptions
      · cases hb : lookupBucket (read_GWL_yaml_file fileFor safeLoad CMIP) (bucketName GWL) with
        | none =>
          rw [resolver_bucket_missing fileFor safeLoad CMIP GCM ensemble pathway GWL h1 h2 h3 hb,
            resolver_bucket_missing fileFor safeLoad (pyLower CMIP) GCM ensemble pathway GWL
              (h1l h1) h2 h3 (by rw [hdoc]; exact hb)]
          rfl
        | some df =>
          by_cases hm : GCM ∈ uniqueKeepFirst (df.map Record.model)
          · rw [resolver_reduce fileFor safeLoad CMIP GCM ensemble pathway GWL df h1 h2 h3 hb hm,
              resolver_reduce fileFor safeLoad (pyLower CMIP) GCM ensemble pathway GWL df
                (h1l h1) h2 h3 (by rw [hdoc]; exact hb) hm]
            exact sameOutcome_filter_match CMIP (pyLower CMIP) GCM ensemble pathway GWL _
          · rw [resolver_model_missing fileFor safeLoad CMIP GCM ensemble pathway GWL df h1 h2 h3 hb hm,
              resolver_model_missing fileFor safeLoad (pyLower CMIP) GCM ensemble pathway GWL df
                (h1l h1) h2 h3 (by rw [hdoc]; exact hb) hm]
            rfl
      · rw [resolver_gwl_invalid fileFor safeLoad CMIP GCM ensemble pathway GWL h1 h2 h3,
          resolver_gwl_invalid fileFor safeLoad (pyLower CMIP) GCM ensemble pathway GWL
            (h1l h1) h2 h3]
        rfl
    · rw [resolver_pathway_invalid fileFor safeLoad CMIP GCM ensemble pathway GWL h1 h2,
        resolver_pathway_invalid fileFor safeLoad (pyLower CMIP) GCM ensemble pathway GWL
          (h1l h1) h2]
      rfl
  · have h1n : pyLower (pyLower CMIP) ∉ cmipOptions := by
      rw [pyLower_idem]; exact h1
    rw [resolver_cmip_invalid fileFor safeLoad CMIP GCM ensemble pathway GWL h1,
      resolver_cmip_invalid fileFor safeLoad (pyLower CMIP) GCM ensemble pathway GWL h1n]
    rfl

/-! The per-line behaviour of the rewrite on a not-reached record line. -/

theorem not_mem_append2 {c : Char} {a b : Text} (ha : c ∉ a) (hb : c ∉ b) : c ∉ a ++ b := by
  intro h
  rcases List.mem_append.mp h with h | h
  · exact ha h
  · exact hb h

theorem pyReplace_once_r (p0 : Char) (ps rep a b : Text) (ha : p0 ∉ a) (hb : p0 ∉ b) :
    pyReplace (a ++ ((p0 :: ps) ++ b)) (p0 :: ps) rep = a ++ (rep ++ b) := by
  have h := pyReplace_once p0 ps rep a b ha
  rw [pyReplace_notOccur p0 ps rep b hb] at h
  calc pyReplace (a ++ ((p0 :: ps) ++ b)) (p0 :: ps) rep
      = pyReplace ((a ++ (p0 :: ps)) ++ b) (p0 :: ps) rep := by rw [List.append_assoc]
    _ = a ++ rep ++ b := h
    _ = a ++ (rep ++ b) := by rw [List.append_assoc]

theorem pyReplace_brace (lbl : String) (rep : Text) :
    pyReplace ['\x7d'] (gwlMarker lbl) rep = ['\x7d'] := by
  rw [pyReplace_cons_no _ _ _ _ ?hn, pyReplace_nil]
  case hn =>
    intro hcon
    rw [show (leadsWith (gwlMarker lbl) ['\x7d'] && !(gwlMarker lbl).isEmpty) = false from rfl] at hcon
    exact Bool.noConfusion hcon

theorem pass_keep (lblA lblB : String) (A : Text) (hA : '\x7d' ∉ A)
    (hone : pyReplace (gwlMarker lblA) (gwlMarker lblB) sentinel9999 = gwlMarker lblA) :
    pyReplace (A ++ gwlMarker lblA) (gwlMarker lblB) sentinel9999 = A ++ gwlMarker lblA := by
  have h := pyReplace_skip '\x7d' (" -- did not reach ".data ++ lblB.data ++ "°C".data)
    sentinel9999 A (gwlMarker lblA) hA
  exact h.trans (congrArg (A ++ ·) hone)

theorem pass_hit (lbl : String) (A : Text) (hA : '\x7d' ∉ A) :
    pyReplace (A ++ gwlMarker lbl) (gwlMarker lbl) sentinel9999 = A ++ sentinel9999 := by
  have h := pyReplace_once '\x7d' (" -- did not reach ".data ++ lbl.data ++ "°C".data)
    sentinel9999 A [] hA
  simp only [List.append_nil, pyReplace_nil] at h
  exact h

theorem pass_after (lbl : String) (A : Text) (hA : '\x7d' ∉ A) :
    pyReplace (A ++ sentinel9999) (gwlMarker lbl) sentinel9999 = A ++ sentinel9999 := by
  have hA2 : '\x7d' ∉ A ++ ", start_year: 9999, end_year: 9999".data :=
    not_mem_append2 hA (by decide)
  have hassoc : A ++ sentinel9999 = (A ++ ", start_year: 9999, end_year: 9999".data) ++ ['\x7d'] := by
    rw [List.append_assoc]
    rfl
  have h := pyReplace_skip '\x7d' (" -- did not reach ".data ++ lbl.data ++ "°C".data)
    sentinel9999 (A ++ ", start_year: 9999, end_year: 9999".data) ['\x7d'] hA2
  have h2 := congrArg ((A ++ ", start_year: 9999, end_year: 9999".data) ++ ·)
    (pyReplace_brace lbl sentinel9999)
  rw [hassoc]
  exact h.trans h2

theorem markers_chain (lbl : String)
    (hlbl : lbl ∈ (["1.0", "1.2", "1.5", "2.0", "3.0", "4.0"] : List String))
    (A : Text) (hA : '\x7d' ∉ A) :
    pyReplace (pyReplace (pyReplace (pyReplace (pyReplace (pyReplace
      (A ++ gwlMarker lbl)
      (gwlMarker "1.0") sentinel9999) (gwlMarker "1.2") sentinel9999)
      (gwlMarker "1.5") sentinel9999) (gwlMarker "2.0") sentinel9999)
      (gwlMarker "3.0") sentinel9999) (gwlMarker "4.0") sentinel9999
    = A ++ sentinel9999 := by
  fin_cases hlbl
  · rw [pass_hit "1.0" A hA, pass_after "1.2" A hA, pass_after "1.5" A hA,
      pass_after "2.0" A hA, pass_after "3.0" A hA, pass_after "4.0" A hA]
  · rw [pass_keep "1.2" "1.0" A hA (by with_unfolding_all rfl), pass_hit "1.2" A hA,
      pass_after "1.5" A hA, pass_after "2.0" A hA, pass_after "3.0" A hA,
      pass_after "4.0" A hA]
  · rw [pass_keep "1.5" "1.0" A hA (by with_unfolding_all rfl),
      pass_keep "1.5" "1.2" A hA (by with_unfolding_all rfl), pass_hit "1.5" A hA,
      pass_after "2.0" A hA, pass_after "3.0" A hA, pass_after "4.0" A hA]
  · rw [pass_keep "2.0" "1.0" A hA (by with_unfolding_all rfl),
      pass_keep "2.0" "1.2" A hA (by with_unfolding_all rfl),
      pass_keep "2.0" "1.5" A hA (by with_unfolding_all rfl), pass_hit "2.0" A hA,
      pass_after "3.0" A hA, pass_after "4.0" A hA]
  · rw [pass_keep "3.0" "1.0" A hA (by with_unfolding_all rfl),
      pass_keep "3.0" "1.2" A hA (by with_unfolding_all rfl),
      pass_keep "3.0" "1.5" A hA (by with_unfolding_all rfl),
      pass_keep "3.0" "2.0" A hA (by with_unfolding_all rfl), pass_hit "3.0" A hA,
      pass_after "4.0" A hA]
  · rw [pass_keep "4.0" "1.0" A hA (by with_unfolding_all rfl),
      pass_keep "4.0" "1.2" A hA (by with_unfolding_all rfl),
      pass_keep "4.0" "1.5" A hA (by with_unfolding_all rfl),
      pass_keep "4.0" "2.0" A hA (by with_unfolding_all rfl),
      pass_keep "4.0" "3.0" A hA (by with_unfolding_all rfl), pass_hit "4.0" A hA]

theorem tidy_notReachedLine (lbl : String)
    (hlbl : lbl ∈ (["1.0", "1.2", "1.5", "2.0", "3.0", "4.0"] : List String))
    (indent m e x : Text)
    (hi1 : '#' ∉ indent) (hi2 : '\x7d' ∉ indent)
    (hm1 : '#' ∉ m) (hm2 : '\x7d' ∉ m)
    (he1 : '#' ∉ e) (he2 : '\x7d' ∉ e)
    (hx1 : '#' ∉ x) (hx2 : '\x7d' ∉ x) :
    tidy (notReachedLine indent m e x lbl)
      = indent ++ ("- ".data ++ renderFlow m e x "9999".data "9999".data) := by
  have hashM : '#' ∉ gwlMarker lbl := by
    fin_cases hlbl <;> exact of_decide_eq_true (by with_unfolding_all rfl)
  have hBodyHash : '#' ∉ "model: ".data ++ (m ++ (", ensemble: ".data ++ (e ++
      (", exp: ".data ++ (x ++ gwlMarker lbl))))) :=
    not_mem_append2 (by decide) (not_mem_append2 hm1 (not_mem_append2 (by decide)
      (not_mem_append2 he1 (not_mem_append2 (by decide) (not_mem_append2 hx1 hashM)))))
  have hline : notReachedLine indent m e x lbl
      = indent ++ (hashPat ++ ("model: ".data ++ (m ++ (", ensemble: ".data ++ (e ++
          (", exp: ".data ++ (x ++ gwlMarker lbl))))))) := by
    unfold notReachedLine
    simp only [List.append_assoc]
  have s0 : pyReplace (indent ++ (hashPat ++ ("model: ".data ++ (m ++ (", ensemble: ".data ++
        (e ++ (", exp: ".data ++ (x ++ gwlMarker lbl)))))))) hashPat dashRep
      = indent ++ (dashRep ++ ("model: ".data ++ (m ++ (", ensemble: ".data ++ (e ++
          (", exp: ".data ++ (x ++ gwlMarker lbl))))))) :=
    pyReplace_once_r '#' " \x7b".data dashRep indent _ hi1 hBodyHash
  have hAA : '\x7d' ∉ indent ++ (dashRep ++ ("model: ".data ++ (m ++ (", ensemble: ".data ++
      (e ++ (", exp: ".data ++ x)))))) :=
    not_mem_append2 hi2 (not_mem_append2 (by decide) (not_mem_append2 (by decide)
      (not_mem_append2 hm2 (not_mem_append2 (by decide) (not_mem_append2 he2
        (not_mem_append2 (by decide) hx2))))))
  have hgroup : indent ++ (dashRep ++ ("model: ".data ++ (m ++ (", ensemble: ".data ++ (e ++
        (", exp: ".data ++ (x ++ gwlMarker lbl)))))))
      = (indent ++ (dashRep ++ ("model: ".data ++ (m ++ (", ensemble: ".data ++ (e ++
          (", exp: ".data ++ x))))))) ++ gwlMarker lbl := by
    simp only [List.append_assoc]
  have hchain := markers_chain lbl hlbl
    (indent ++ (dashRep ++ ("model: ".data ++ (m ++ (", ensemble: ".data ++ (e ++
      (", exp: ".data ++ x))))))) hAA
  unfold tidy
  rw [hline, s0, hgroup, hchain]
  simp only [renderFlow, List.append_assoc]
  rfl

/-! Round trip: the rewritten record text parses to the 9999 sentinel record. -/

theorem takeUntil_hit (p0 : Char) (ps : Text) :
    ∀ (m b : Text), p0 ∉ m →
      takeUntilPat (p0 :: ps) (m ++ ((p0 :: ps) ++ b)) = some (m, b) := by
  intro m
  induction m with
  | nil =>
    intro b _
    show takeUntilPat (p0 :: ps) (p0 :: (ps ++ b)) = some ([], b)
    simp only [takeUntilPat]
    have hcond : (leadsWith (p0 :: ps) (p0 :: (ps ++ b)) && !(p0 :: ps).isEmpty) = true := by
      rw [Bool.and_eq_true]
      exact ⟨leadsWith_append_self (p0 :: ps) b, rfl⟩
    rw [if_pos hcond]
    exact congrArg (fun t => some (([] : Text), t)) (List.drop_left (p0 :: ps) b)
  | cons d ds ih =>
    intro b hd
    have hdp : ¬ p0 = d := fun hh => hd (by rw [hh]; exact List.mem_cons_self d ds)
    show takeUntilPat (p0 :: ps) (d :: (ds ++ ((p0 :: ps) ++ b))) = some (d :: ds, b)
    simp only [takeUntilPat]
    rw [if_neg ?hneg, ih b (fun hmem => hd (List.mem_cons_of_mem d hmem))]
    case hneg =>
      intro hcon
      rw [Bool.and_eq_true] at hcon
      have h2 := hcon.1
      simp only [leadsWith, Bool.and_eq_true, beq_iff_eq] at h2
      exact hdp h2.1

theorem stripLead_hit (pat b : Text) : stripLead pat (pat ++ b) = some b := by
  unfold stripLead
  rw [if_pos (leadsWith_append_self pat b), List.drop_left]

theorem parse_render (m e x : Text) (hm : ',' ∉ m) (he : ',' ∉ e) (hx : ',' ∉ x) :
    parseFlowRecord (renderFlow m e x "9999".data "9999".data)
      = some ⟨m.asString, e.asString, x.asString, 9999, 9999⟩ := by
  have hgroup : renderFlow m e x "9999".data "9999".data
      = "\x7bmodel: ".data ++ (m ++ ((',' :: " ensemble: ".data) ++ (e ++
          ((',' :: " exp: ".data) ++ (x ++ ((',' :: " start_year: ".data) ++
            ("9999".data ++ ((',' :: " end_year: ".data) ++
              ("9999".data ++ (['\x7d'] ++ ([] : Text))))))))))) := by
    simp only [renderFlow, List.append_assoc]
    rfl
  rw [hgroup]
  unfold parseFlowRecord
  rw [stripLead_hit]
  simp only [Option.bind_eq_bind, Option.some_bind]
  rw [takeUntil_hit ',' " ensemble: ".data m _ hm]
  simp only [Option.some_bind]
  rw [takeUntil_hit ',' " exp: ".data e _ he]
  simp only [Option.some_bind]
  rw [takeUntil_hit ',' " start_year: ".data x _ hx]
  simp only [Option.some_bind]
  rw [takeUntil_hit ',' " end_year: ".data "9999".data _ (by decide)]
  simp only [Option.some_bind]
  rw [takeUntil_hit '\x7d' [] "9999".data [] (by decide)]
  simp only [Option.some_bind]
  rfl

/-- C7: the textual rewrite acts line by line on the document (first
conjunct); on every raw not-reached record line, for each of the six
supported warming levels, it replaces the trailing `-- did not reach N°C`
marker with the `, start_year: 9999, end_year: 9999` sentinel and turns the
`# ` comment marker into the `- ` sequence-item marker (second conjunct); and
the rewritten record text parses to a structured record with
`start_year = end_year = 9999` (third conjunct). -/
theorem c7_rewrite_roundtrip :
    (∀ ls : List Text, tidy (joinLines ls) = joinLines (ls.map tidy))
    ∧ (∀ lbl ∈ (["1.0", "1.2", "1.5", "2.0", "3.0", "4.0"] : List String),
        ∀ indent m e x : Text,
          '#' ∉ indent → '\x7d' ∉ indent → '#' ∉ m → '\x7d' ∉ m → '#' ∉ e → '\x7d' ∉ e →
          '#' ∉ x → '\x7d' ∉ x →
          tidy (notReachedLine indent m e x lbl)
            = indent ++ ("- ".data ++ renderFlow m e x "9999".data "9999".data))
    ∧ (∀ m e x : Text, ',' ∉ m → ',' ∉ e → ',' ∉ x →
        parseFlowRecord (renderFlow m e x "9999".data "9999".data)
          = some ⟨m.asString, e.asString, x.asString, 9999, 9999⟩) :=
  ⟨tidy_joinLines,
   fun lbl hlbl indent m e x h1 h2 h3 h4 h5 h6 h7 h8 =>
     tidy_notReachedLine lbl hlbl indent m e x h1 h2 h3 h4 h5 h6 h7 h8,
   parse_render⟩

/-- Witness for C7: the 2.0°C not-reached line for the running example
record, rewritten and parsed. -/
theorem c7_rewrite_roundtrip_witness :
    tidy (notReachedLine "  ".data "ACCESS-ESM1-5".data "r1i1p1f1".data "ssp585".data "2.0")
      = "  ".data ++ ("- ".data ++ renderFlow "ACCESS-ESM1-5".data "r1i1p1f1".data
          "ssp585".data "9999".data "9999".data)
    ∧ parseFlowRecord (renderFlow "ACCESS-ESM1-5".data "r1i1p1f1".data "ssp585".data
        "9999".data "9999".data)
      = some ⟨"ACCESS-ESM1-5", "r1i1p1f1", "ssp585", 9999, 9999⟩ := by
  constructor
  · exact c7_rewrite_roundtrip.2.1 "2.0" (of_decide_eq_true (by with_unfolding_all rfl))
      "  ".data "ACCESS-ESM1-5".data "r1i1p1f1".data "ssp585".data
      (by decide) (by decide) (by decide) (by decide)
      (by decide) (by decide) (by decide) (by decide)
  · exact c7_rewrite_roundtrip.2.2 "ACCESS-ESM1-5".data "r1i1p1f1".data "ssp585".data
      (by decide) (by decide) (by decide)
